import Mathlib

/-!
# Cyber Spawns token contracts: deployment script and Hardhat configuration

A shallow embedding of `hardhat.config.js` (the exported configuration object)
and of `scripts/deploy.js` (the `main` function and the top-level
`main().then(...).catch(...)` chain), followed by the properties of the
deployment run.

The external collaborators (the contract factory lookup, the deployment
transaction, the confirmation and the Hardhat task runner) are parameters of
the model: each is given by the outcome of awaiting it and every theorem
quantifies over all of them.  Effects are recorded in an explicit `World`:
the collaborator calls in order, the lines written to standard output and the
values written to the error stream.
-/

namespace CyberSpawns

/-! ## JavaScript values read from the process environment -/

/-- The JavaScript values that occur in the configuration: `undefined` or a string. -/
inductive JSValue where
  | undefined
  | string (s : String)
deriving DecidableEq, Repr

/-- The process environment `process.env` as it stands once
`require("dotenv").config()` has run: a finite map from names to strings. -/
abbrev Env := String → Option String

/-- Property access `process.env.NAME`: the string when the variable is set,
`undefined` when it is not. -/
def Env.get (env : Env) (name : String) : JSValue :=
  match env name with
  | some s => JSValue.string s
  | none => JSValue.undefined

/-- The template literal with a single substitution and no other text: the
substituted value converted with ToString, so `undefined` becomes the
nine-character string `"undefined"`. -/
def templateLiteral (v : JSValue) : JSValue :=
  match v with
  | JSValue.undefined => JSValue.string "undefined"
  | JSValue.string s => JSValue.string s

/-- A value is empty or undefined: it is `undefined` or the empty string. -/
def JSValue.isEmptyOrUndefined (v : JSValue) : Prop :=
  v = JSValue.undefined ∨ v = JSValue.string ""

instance (v : JSValue) : Decidable v.isEmptyOrUndefined := by
  unfold JSValue.isEmptyOrUndefined
  exact inferInstance

/-! ## `hardhat.config.js` -/

/-- One entry of `networks`; a key that the object literal does not have is `none`. -/
structure NetworkUserConfig where
  url : Option String
  chainId : Option Nat
  gasPrice : Option Nat
  accounts : Option (List JSValue)
  timeout : Option Nat
deriving DecidableEq, Repr

/-- One entry of `solidity.compilers`. -/
structure CompilerEntry where
  version : String
deriving DecidableEq, Repr

/-- The object `solidity.optimizer`. -/
structure OptimizerConfig where
  enabled : Bool
  runs : Nat
deriving DecidableEq, Repr

/-- The object `solidity`. -/
structure SolidityConfig where
  compilers : List CompilerEntry
  optimizer : OptimizerConfig
deriving DecidableEq, Repr

/-- The object `etherscan`. -/
structure EtherscanConfig where
  apiKey : JSValue
deriving DecidableEq, Repr

/-- The object `mocha`. -/
structure MochaConfig where
  timeout : Nat
deriving DecidableEq, Repr

/-- The object `tenderly`. -/
structure TenderlyConfig where
  project : JSValue
  username : JSValue
deriving DecidableEq, Repr

/-- The exported configuration object; `networks` keeps the keys in source order. -/
structure HardhatUserConfig where
  defaultNetwork : String
  networks : List (String × NetworkUserConfig)
  solidity : SolidityConfig
  etherscan : EtherscanConfig
  mocha : MochaConfig
  tenderly : TenderlyConfig
deriving DecidableEq, Repr

/-- The constant `PRIVATE_KEY_1 = process.env.PRIVATE_KEY_1`. -/
def PRIVATE_KEY_1 (env : Env) : JSValue := env.get "PRIVATE_KEY_1"

/-- The constant `PRIVATE_KEY_2 = process.env.PRIVATE_KEY_2`. -/
def PRIVATE_KEY_2 (env : Env) : JSValue := env.get "PRIVATE_KEY_2"

/-- The value of `module.exports` in `hardhat.config.js`, as a function of the
process environment. -/
def moduleExports (env : Env) : HardhatUserConfig :=
  { defaultNetwork := "localhost"
    networks :=
      [ ("hardhat",
          { url := none, chainId := none, gasPrice := none, accounts := none,
            timeout := none }),
        ("testnet",
          { url := some "https://data-seed-prebsc-1-s1.binance.org:8545"
            chainId := some 97
            gasPrice := some 20000000000
            accounts :=
              some [templateLiteral (PRIVATE_KEY_1 env), templateLiteral (PRIVATE_KEY_2 env)]
            timeout := none }),
        ("localhost",
          { url := some "http://localhost:8545"
            chainId := none
            gasPrice := none
            accounts := none
            timeout := some 150000 }),
        ("mainnet",
          { url := some "https://bsc-dataseed.binance.org/"
            chainId := some 56
            gasPrice := none
            accounts := some [templateLiteral (PRIVATE_KEY_1 env)]
            timeout := none }) ]
    solidity :=
      { compilers := [{ version := "0.8.0" }]
        optimizer := { enabled := false, runs := 200 } }
    etherscan := { apiKey := env.get "BSCSCAN_API_KEY" }
    mocha := { timeout := 50000 }
    tenderly :=
      { project := env.get "TENDERLY_PROJECT"
        username := env.get "TENDERLY_USERNAME" } }

/-- The `accounts` list of the network called `name`; the empty list when the
network or the key is missing. -/
def HardhatUserConfig.accountsOf (cfg : HardhatUserConfig) (name : String) : List JSValue :=
  match cfg.networks.lookup name with
  | some net => net.accounts.getD []
  | none => []

/-! ## The collaborators of `scripts/deploy.js` -/

/-- The reason of a rejected promise. -/
structure Error where
  message : String
deriving DecidableEq, Repr

/-- The object returned by `factory.deploy()`: its `address` property and the
outcome of awaiting `deployed()` on it. -/
structure Contract where
  address : String
  deployed : Except Error Unit

/-- The object returned by `ethers.getContractFactory(name)`: the outcome of
awaiting `deploy()` on it. -/
structure Factory where
  deploy : Except Error Contract

/-- The second argument of `hre.run("verify:verify", ...)`. -/
structure TaskArguments where
  address : String
  constructorArguments : List JSValue
deriving DecidableEq, Repr

/-- The object `hre.network`. -/
structure Network where
  name : String

/-- The Hardhat runtime environment as far as the script reads it: the resolved
configuration, the active network, `ethers.getContractFactory` and `hre.run`,
the last two given by the outcome of awaiting them on each argument. -/
structure HardhatRuntimeEnvironment where
  config : HardhatUserConfig
  network : Network
  getContractFactory : String → Except Error Factory
  run : String → TaskArguments → Except Error Unit

/-! ## Effects -/

/-- A call to a collaborator. -/
inductive Call where
  | getContractFactory (name : String)
  | deploy
  | deployed
  | run (task : String) (args : TaskArguments)
deriving DecidableEq, Repr

/-- A call to `ethers.getContractFactory`. -/
def Call.isGetContractFactory : Call → Bool
  | Call.getContractFactory _ => true
  | _ => false

/-- A call to `deploy()`. -/
def Call.isDeploy : Call → Bool
  | Call.deploy => true
  | _ => false

/-- A call to `deployed()`. -/
def Call.isDeployed : Call → Bool
  | Call.deployed => true
  | _ => false

/-- A call to the verification collaborator, `hre.run("verify:verify", ...)`. -/
def Call.isVerify : Call → Bool
  | Call.run task _ => task == "verify:verify"
  | _ => false

/-- A collaborator call together with whether its promise was fulfilled. -/
structure Event where
  call : Call
  ok : Bool
deriving DecidableEq, Repr

/-- Everything a run does that can be observed from outside. -/
structure World where
  calls : List Event
  stdout : List String
  stderr : List Error
deriving DecidableEq, Repr

/-- The world before the script starts. -/
def World.initial : World := { calls := [], stdout := [], stderr := [] }

/-- An asynchronous computation: it changes the world and is either fulfilled
with a value or rejected with an error.  The world survives a rejection. -/
abbrev Async (α : Type) := ExceptT Error (StateM World) α

/-- Awaiting a collaborator call: the call and its outcome are appended to the
trace and the outcome is the result of the `await`. -/
def await {α : Type} (call : Call) (outcome : Except Error α) : Async α :=
  ExceptT.mk (fun w =>
    (outcome, { w with calls := w.calls ++ [{ call := call, ok := outcome.toBool }] }))

/-- The function `console.log` on string arguments none of which is used as a
format: one line, the arguments separated by single spaces. -/
def consoleLog (args : List String) : Async Unit :=
  ExceptT.mk (fun w =>
    (Except.ok (), { w with stdout := w.stdout ++ [" ".intercalate args] }))

/-- The function `console.error` on an error value. -/
def consoleError (error : Error) (w : World) : World :=
  { w with stderr := w.stderr ++ [error] }

/-- The call `await ethers.getContractFactory(name)`. -/
def getContractFactory (hre : HardhatRuntimeEnvironment) (name : String) : Async Factory :=
  await (Call.getContractFactory name) (hre.getContractFactory name)

/-- The call `await factory.deploy()`. -/
def Factory.awaitDeploy (factory : Factory) : Async Contract :=
  await Call.deploy factory.deploy

/-- The call `await contract.deployed()`. -/
def Contract.awaitDeployed (contract : Contract) : Async Unit :=
  await Call.deployed contract.deployed

/-- The call `await hre.run(task, args)`. -/
def hreRun (hre : HardhatRuntimeEnvironment) (task : String) (args : TaskArguments) :
    Async Unit :=
  await (Call.run task args) (hre.run task args)

/-! ## `scripts/deploy.js` -/

/-- The function `main` of `scripts/deploy.js`. -/
def main (hre : HardhatRuntimeEnvironment) : Async Unit := do
  let cyberspawns721Factory ← getContractFactory hre "CyberSpawns721"
  let cyberspawns721Contract ← cyberspawns721Factory.awaitDeploy
  cyberspawns721Contract.awaitDeployed
  consoleLog ["Cyber Spawns 721 contract Deployed: " ++ cyberspawns721Contract.address]
  if hre.network.name = "mainnet" ∨ hre.network.name = "testnet" then
    hreRun hre "verify:verify"
      { address := cyberspawns721Contract.address, constructorArguments := [] }
  else
    consoleLog
      ["Contracts deployed to", hre.network.name, "network. Please verify them manually."]

/-- How a run of the script ends: the argument of `process.exit` and the world
at that moment. -/
structure Exit where
  code : Nat
  world : World
deriving DecidableEq, Repr

/-- The top level of `scripts/deploy.js`:
`main().then(() => process.exit(0)).catch(error => ...)`, where the handler
writes the error with `console.error` and calls `process.exit(1)`. -/
def script (hre : HardhatRuntimeEnvironment) : Exit :=
  match (main hre).run.run World.initial with
  | (Except.ok _, w) => { code := 0, world := w }
  | (Except.error error, w) => { code := 1, world := consoleError error w }

/-- The Hardhat runtime environment of a run: the configuration is built from
the process environment, the active network and the collaborators are given. -/
def runtime (env : Env) (networkName : String)
    (factoryOf : String → Except Error Factory)
    (runTask : String → TaskArguments → Except Error Unit) : HardhatRuntimeEnvironment :=
  { config := moduleExports env
    network := { name := networkName }
    getContractFactory := factoryOf
    run := runTask }

/-- The address at which the deployment is confirmed, when the factory lookup,
`deploy()` and `deployed()` are all fulfilled. -/
def confirmedAddress (hre : HardhatRuntimeEnvironment) : Option String :=
  match hre.getContractFactory "CyberSpawns721" with
  | Except.error _ => none
  | Except.ok f =>
    match f.deploy with
    | Except.error _ => none
    | Except.ok c =>
      match c.deployed with
      | Except.error _ => none
      | Except.ok _ => some c.address

/-! ## Sample collaborators -/

/-- A factory whose deployment is fulfilled with a contract at `address` that
is then confirmed. -/
def sampleFactory (address : String) : Factory :=
  { deploy := Except.ok { address := address, deployed := Except.ok () } }

/-- A run with no environment variable set, on the network `networkName`, in
which the contract deploys to `address` and the verification task has the
outcome `verification`. -/
def sampleRuntime (networkName address : String) (verification : Except Error Unit) :
    HardhatRuntimeEnvironment :=
  runtime (fun _ => none) networkName (fun _ => Except.ok (sampleFactory address))
    (fun _ _ => verification)

/-- A run in which no compiled artifact matches any contract name. -/
def noArtifactRuntime (networkName : String) : HardhatRuntimeEnvironment :=
  runtime (fun _ => none) networkName
    (fun name => Except.error { message := "no artifact for " ++ name })
    (fun _ _ => Except.ok ())

/-- A run in which the deployment transaction is rejected. -/
def rejectedDeployRuntime (networkName : String) : HardhatRuntimeEnvironment :=
  runtime (fun _ => none) networkName
    (fun _ => Except.ok { deploy := Except.error { message := "invalid sender" } })
    (fun _ _ => Except.ok ())

/-- An environment in which no variable is set. -/
def emptyEnv : Env := fun _ => none

/-! ## The six ways a run can go -/

/-- The line that the second `console.log` of `main` writes. -/
theorem intercalate_reminder (n : String) :
    " ".intercalate ["Contracts deployed to", n, "network. Please verify them manually."] =
      "Contracts deployed to " ++ n ++ " network. Please verify them manually." := by
  apply String.ext
  simp [String.intercalate, String.intercalate.go, String.data_append]

/-- The deployment line determines the address. -/
theorem deployedLine_inj (a b : String)
    (h : "Cyber Spawns 721 contract Deployed: " ++ a =
      "Cyber Spawns 721 contract Deployed: " ++ b) : a = b := by
  apply String.ext
  have h2 := congrArg String.data h
  simpa [String.data_append] using h2

/-- The deployment line is never the manual-verification reminder. -/
theorem deployedLine_ne_reminder (a n : String) :
    "Cyber Spawns 721 contract Deployed: " ++ a ≠
      "Contracts deployed to " ++ n ++ " network. Please verify them manually." := by
  intro h
  have h2 := congrArg String.data h
  simp [String.data_append] at h2

/-- The factory lookup is rejected. -/
theorem script_factory_error (hre : HardhatRuntimeEnvironment) (e : Error)
    (hf : hre.getContractFactory "CyberSpawns721" = Except.error e) :
    script hre =
      { code := 1
        world :=
          { calls := [{ call := Call.getContractFactory "CyberSpawns721", ok := false }]
            stdout := []
            stderr := [e] } } := by
  simp [script, main, getContractFactory, await, hf, ExceptT.run, ExceptT.mk, bind,
    ExceptT.bind, ExceptT.bindCont, StateT.bind, StateT.run, World.initial, consoleError,
    Except.toBool, pure, StateT.pure, ExceptT.pure]

/-- The deployment transaction is rejected. -/
theorem script_deploy_error (hre : HardhatRuntimeEnvironment) (f : Factory) (e : Error)
    (hf : hre.getContractFactory "CyberSpawns721" = Except.ok f)
    (hd : f.deploy = Except.error e) :
    script hre =
      { code := 1
        world :=
          { calls :=
              [{ call := Call.getContractFactory "CyberSpawns721", ok := true },
               { call := Call.deploy, ok := false }]
            stdout := []
            stderr := [e] } } := by
  simp [script, main, getContractFactory, Factory.awaitDeploy, await, hf, hd, ExceptT.run,
    ExceptT.mk, bind, ExceptT.bind, ExceptT.bindCont, StateT.bind, StateT.run, World.initial,
    consoleError, Except.toBool, pure, StateT.pure, ExceptT.pure]

/-- The confirmation is rejected. -/
theorem script_deployed_error (hre : HardhatRuntimeEnvironment) (f : Factory) (c : Contract)
    (e : Error) (hf : hre.getContractFactory "CyberSpawns721" = Except.ok f)
    (hd : f.deploy = Except.ok c) (hc : c.deployed = Except.error e) :
    script hre =
      { code := 1
        world :=
          { calls :=
              [{ call := Call.getContractFactory "CyberSpawns721", ok := true },
               { call := Call.deploy, ok := true },
               { call := Call.deployed, ok := false }]
            stdout := []
            stderr := [e] } } := by
  simp [script, main, getContractFactory, Factory.awaitDeploy, Contract.awaitDeployed, await,
    hf, hd, hc, ExceptT.run, ExceptT.mk, bind, ExceptT.bind, ExceptT.bindCont, StateT.bind,
    StateT.run, World.initial, consoleError, Except.toBool, pure, StateT.pure, ExceptT.pure]

/-- Confirmed on mainnet or testnet, verification fulfilled. -/
theorem script_verify_ok (hre : HardhatRuntimeEnvironment) (f : Factory) (c : Contract)
    (hn : hre.network.name = "mainnet" ∨ hre.network.name = "testnet")
    (hf : hre.getContractFactory "CyberSpawns721" = Except.ok f)
    (hd : f.deploy = Except.ok c) (hc : c.deployed = Except.ok ())
    (hv : hre.run "verify:verify" { address := c.address, constructorArguments := [] } =
      Except.ok ()) :
    script hre =
      { code := 0
        world :=
          { calls :=
              [{ call := Call.getContractFactory "CyberSpawns721", ok := true },
               { call := Call.deploy, ok := true },
               { call := Call.deployed, ok := true },
               { call :=
                   Call.run "verify:verify"
                     { address := c.address, constructorArguments := [] }
                 ok := true }]
            stdout := ["Cyber Spawns 721 contract Deployed: " ++ c.address]
            stderr := [] } } := by
  simp [script, main, getContractFactory, Factory.awaitDeploy, Contract.awaitDeployed, hreRun,
    consoleLog, await, hf, hd, hc, hn, hv, ExceptT.run, ExceptT.mk, bind, ExceptT.bind,
    ExceptT.bindCont, StateT.bind, StateT.run, World.initial, consoleError, Except.toBool,
    pure, StateT.pure, ExceptT.pure, String.intercalate, String.intercalate.go]

/-- Confirmed on mainnet or testnet, verification rejected. -/
theorem script_verify_error (hre : HardhatRuntimeEnvironment) (f : Factory) (c : Contract)
    (e : Error) (hn : hre.network.name = "mainnet" ∨ hre.network.name = "testnet")
    (hf : hre.getContractFactory "CyberSpawns721" = Except.ok f)
    (hd : f.deploy = Except.ok c) (hc : c.deployed = Except.ok ())
    (hv : hre.run "verify:verify" { address := c.address, constructorArguments := [] } =
      Except.error e) :
    script hre =
      { code := 1
        world :=
          { calls :=
              [{ call := Call.getContractFactory "CyberSpawns721", ok := true },
               { call := Call.deploy, ok := true },
               { call := Call.deployed, ok := true },
               { call :=
                   Call.run "verify:verify"
                     { address := c.address, constructorArguments := [] }
                 ok := false }]
            stdout := ["Cyber Spawns 721 contract Deployed: " ++ c.address]
            stderr := [e] } } := by
  simp [script, main, getContractFactory, Factory.awaitDeploy, Contract.awaitDeployed, hreRun,
    consoleLog, await, hf, hd, hc, hn, hv, ExceptT.run, ExceptT.mk, bind, ExceptT.bind,
    ExceptT.bindCont, StateT.bind, StateT.run, World.initial, consoleError, Except.toBool,
    pure, StateT.pure, ExceptT.pure, String.intercalate, String.intercalate.go]

/-- Confirmed on any other network: no verification, a reminder instead. -/
theorem script_skip (hre : HardhatRuntimeEnvironment) (f : Factory) (c : Contract)
    (hn : ¬ (hre.network.name = "mainnet" ∨ hre.network.name = "testnet"))
    (hf : hre.getContractFactory "CyberSpawns721" = Except.ok f)
    (hd : f.deploy = Except.ok c) (hc : c.deployed = Except.ok ()) :
    script hre =
      { code := 0
        world :=
          { calls :=
              [{ call := Call.getContractFactory "CyberSpawns721", ok := true },
               { call := Call.deploy, ok := true },
               { call := Call.deployed, ok := true }]
            stdout :=
              ["Cyber Spawns 721 contract Deployed: " ++ c.address,
               "Contracts deployed to " ++ hre.network.name ++
                 " network. Please verify them manually."]
            stderr := [] } } := by
  have hr := intercalate_reminder hre.network.name
  simp [script, main, getContractFactory, Factory.awaitDeploy, Contract.awaitDeployed,
    consoleLog, await, hf, hd, hc, hn, ExceptT.run, ExceptT.mk, bind, ExceptT.bind,
    ExceptT.bindCont, StateT.bind, StateT.run, World.initial, consoleError, Except.toBool,
    pure, StateT.pure, ExceptT.pure, hr]
  simp [String.intercalate, String.intercalate.go]

/-! ## Properties of a run -/

/-- C1: on the network `mainnet` or `testnet`, when the factory lookup, the
deployment and the confirmation are all fulfilled, the run makes exactly one
call to the verification task, with the address of the deployed contract and an
empty list of constructor arguments (whatever the outcome of that call). -/
theorem verify_called_once_on_public_network (hre : HardhatRuntimeEnvironment)
    (f : Factory) (c : Contract)
    (hn : hre.network.name = "mainnet" ∨ hre.network.name = "testnet")
    (hf : hre.getContractFactory "CyberSpawns721" = Except.ok f)
    (hd : f.deploy = Except.ok c) (hc : c.deployed = Except.ok ()) :
    ((script hre).world.calls.filter (fun ev => ev.call.isVerify)).map Event.call =
      [Call.run "verify:verify" { address := c.address, constructorArguments := [] }] := by
  cases hv : hre.run "verify:verify" { address := c.address, constructorArguments := [] } with
  | error e =>
    rw [script_verify_error hre f c e hn hf hd hc hv]
    simp [Call.isVerify]
  | ok u =>
    rw [script_verify_ok hre f c hn hf hd hc hv]
    simp [Call.isVerify]

/-- Witness for C1: a deployment to `0xABC` on `testnet`. -/
theorem verify_called_once_on_public_network_witness :
    ((script (sampleRuntime "testnet" "0xABC" (Except.ok ()))).world.calls.filter
        (fun ev => ev.call.isVerify)).map Event.call =
      [Call.run "verify:verify" { address := "0xABC", constructorArguments := [] }] :=
  verify_called_once_on_public_network (sampleRuntime "testnet" "0xABC" (Except.ok ()))
    (sampleFactory "0xABC") { address := "0xABC", deployed := Except.ok () }
    (Or.inr rfl) rfl rfl rfl

/-- C2: on a network whose name is neither `mainnet` nor `testnet`, a run with
a fulfilled deployment makes no call to the verification task and writes to
standard output, after the deployment line, the manual-verification reminder
that contains the network name. -/
theorem no_verify_on_other_network (hre : HardhatRuntimeEnvironment)
    (f : Factory) (c : Contract)
    (hm : hre.network.name ≠ "mainnet") (ht : hre.network.name ≠ "testnet")
    (hf : hre.getContractFactory "CyberSpawns721" = Except.ok f)
    (hd : f.deploy = Except.ok c) (hc : c.deployed = Except.ok ()) :
    (script hre).world.calls.filter (fun ev => ev.call.isVerify) = [] ∧
      (script hre).world.stdout =
        ["Cyber Spawns 721 contract Deployed: " ++ c.address,
         "Contracts deployed to " ++ hre.network.name ++
           " network. Please verify them manually."] := by
  have hn : ¬ (hre.network.name = "mainnet" ∨ hre.network.name = "testnet") := by
    rintro (h | h)
    · exact hm h
    · exact ht h
  rw [script_skip hre f c hn hf hd hc]
  simp [Call.isVerify]

/-- Witness for C2: the network name `Mainnet` differs from `mainnet` in letter
case only and is not verified. -/
theorem no_verify_on_other_network_witness :
    (script (sampleRuntime "Mainnet" "0xABC" (Except.ok ()))).world.calls.filter
        (fun ev => ev.call.isVerify) = [] ∧
      (script (sampleRuntime "Mainnet" "0xABC" (Except.ok ()))).world.stdout =
        ["Cyber Spawns 721 contract Deployed: " ++ "0xABC",
         "Contracts deployed to " ++ "Mainnet" ++ " network. Please verify them manually."] :=
  no_verify_on_other_network (sampleRuntime "Mainnet" "0xABC" (Except.ok ()))
    (sampleFactory "0xABC") { address := "0xABC", deployed := Except.ok () }
    (by decide) (by decide) rfl rfl rfl

/-- C3: when the factory lookup for `CyberSpawns721` is rejected, the run exits
with code 1, the error is written to the error stream, the lookup is the only
collaborator call (so `deploy()`, `deployed()` and the verification task are
never called) and nothing is written to standard output. -/
theorem factory_failure_aborts (hre : HardhatRuntimeEnvironment) (e : Error)
    (hf : hre.getContractFactory "CyberSpawns721" = Except.error e) :
    (script hre).code = 1 ∧
      (script hre).world.stderr = [e] ∧
      (script hre).world.calls =
        [{ call := Call.getContractFactory "CyberSpawns721", ok := false }] ∧
      (∀ ev ∈ (script hre).world.calls,
        ev.call.isDeploy = false ∧ ev.call.isDeployed = false ∧ ev.call.isVerify = false) ∧
      (script hre).world.stdout = [] := by
  rw [script_factory_error hre e hf]
  simp [Call.isDeploy, Call.isDeployed, Call.isVerify]

/-- Witness for C3: no artifact on `testnet`. -/
theorem factory_failure_aborts_witness :
    (script (noArtifactRuntime "testnet")).code = 1 ∧
      (script (noArtifactRuntime "testnet")).world.stderr =
        [{ message := "no artifact for " ++ "CyberSpawns721" }] ∧
      (script (noArtifactRuntime "testnet")).world.calls =
        [{ call := Call.getContractFactory "CyberSpawns721", ok := false }] ∧
      (∀ ev ∈ (script (noArtifactRuntime "testnet")).world.calls,
        ev.call.isDeploy = false ∧ ev.call.isDeployed = false ∧ ev.call.isVerify = false) ∧
      (script (noArtifactRuntime "testnet")).world.stdout = [] :=
  factory_failure_aborts (noArtifactRuntime "testnet")
    { message := "no artifact for " ++ "CyberSpawns721" } rfl

/-- C4: on `mainnet` or `testnet`, when the deployment is confirmed at an
address and the verification call is then rejected, the run exits with code 1,
not 0, the verification error is written to the error stream, and the line
reporting the deployed address is on standard output all the same. -/
theorem verify_failure_is_fatal (hre : HardhatRuntimeEnvironment)
    (f : Factory) (c : Contract) (e : Error)
    (hn : hre.network.name = "mainnet" ∨ hre.network.name = "testnet")
    (hf : hre.getContractFactory "CyberSpawns721" = Except.ok f)
    (hd : f.deploy = Except.ok c) (hc : c.deployed = Except.ok ())
    (hv : hre.run "verify:verify" { address := c.address, constructorArguments := [] } =
      Except.error e) :
    (script hre).code = 1 ∧ (script hre).code ≠ 0 ∧
      (script hre).world.stderr = [e] ∧
      (script hre).world.stdout = ["Cyber Spawns 721 contract Deployed: " ++ c.address] := by
  rw [script_verify_error hre f c e hn hf hd hc hv]
  simp

/-- Witness for C4: the explorer rejects the verification on `mainnet`. -/
theorem verify_failure_is_fatal_witness :
    (script (sampleRuntime "mainnet" "0xABC"
        (Except.error { message := "verification failed" }))).code = 1 ∧
      (script (sampleRuntime "mainnet" "0xABC"
        (Except.error { message := "verification failed" }))).code ≠ 0 ∧
      (script (sampleRuntime "mainnet" "0xABC"
        (Except.error { message := "verification failed" }))).world.stderr =
          [{ message := "verification failed" }] ∧
      (script (sampleRuntime "mainnet" "0xABC"
        (Except.error { message := "verification failed" }))).world.stdout =
          ["Cyber Spawns 721 contract Deployed: " ++ "0xABC"] :=
  verify_failure_is_fatal
    (sampleRuntime "mainnet" "0xABC" (Except.error { message := "verification failed" }))
    (sampleFactory "0xABC") { address := "0xABC", deployed := Except.ok () }
    { message := "verification failed" } (Or.inl rfl) rfl rfl rfl rfl

/-- C7: on the network `localhost`, when the factory is resolved and the
contract deploys and confirms at an address, standard output is the deployment
line with that address followed by the manual-verification reminder naming
`localhost`, nothing is written to the error stream, and the exit code is 0. -/
theorem localhost_scenario (hre : HardhatRuntimeEnvironment) (f : Factory) (c : Contract)
    (hn : hre.network.name = "localhost")
    (hf : hre.getContractFactory "CyberSpawns721" = Except.ok f)
    (hd : f.deploy = Except.ok c) (hc : c.deployed = Except.ok ()) :
    (script hre).world.stdout =
        ["Cyber Spawns 721 contract Deployed: " ++ c.address,
         "Contracts deployed to localhost network. Please verify them manually."] ∧
      (script hre).world.stderr = [] ∧
      (script hre).code = 0 := by
  have hn2 : ¬ (hre.network.name = "mainnet" ∨ hre.network.name = "testnet") := by
    rw [hn]
    decide
  rw [script_skip hre f c hn2 hf hd hc, hn]
  refine ⟨?_, rfl, rfl⟩
  simp

/-- Witness for C7: a deployment to `0xABC` on `localhost`. -/
theorem localhost_scenario_witness :
    (script (sampleRuntime "localhost" "0xABC" (Except.ok ()))).world.stdout =
        ["Cyber Spawns 721 contract Deployed: " ++ "0xABC",
         "Contracts deployed to localhost network. Please verify them manually."] ∧
      (script (sampleRuntime "localhost" "0xABC" (Except.ok ()))).world.stderr = [] ∧
      (script (sampleRuntime "localhost" "0xABC" (Except.ok ()))).code = 0 :=
  localhost_scenario (sampleRuntime "localhost" "0xABC" (Except.ok ()))
    (sampleFactory "0xABC") { address := "0xABC", deployed := Except.ok () } rfl rfl rfl rfl

/-- C5: in every run, whatever the network name and the collaborator outcomes,
a call to the verification task is preceded in the trace of collaborator calls
by exactly a fulfilled `getContractFactory`, a fulfilled `deploy()` and a
fulfilled `deployed()`, in this order. -/
theorem verify_only_after_confirmation (hre : HardhatRuntimeEnvironment)
    (pre post : List Event) (ev : Event)
    (h : (script hre).world.calls = pre ++ ev :: post)
    (hv : ev.call.isVerify = true) :
    pre =
      [{ call := Call.getContractFactory "CyberSpawns721", ok := true },
       { call := Call.deploy, ok := true },
       { call := Call.deployed, ok := true }] := by
  cases hf : hre.getContractFactory "CyberSpawns721" with
  | error e =>
    rw [script_factory_error hre e hf] at h
    rcases pre with _ | ⟨p1, _ | ⟨p2, pre⟩⟩ <;> simp at h
    obtain ⟨h1, -⟩ := h
    subst h1
    simp [Call.isVerify] at hv
  | ok f =>
    cases hd : f.deploy with
    | error e =>
      rw [script_deploy_error hre f e hf hd] at h
      rcases pre with _ | ⟨p1, _ | ⟨p2, _ | ⟨p3, pre⟩⟩⟩ <;> simp at h
      · obtain ⟨h1, -⟩ := h
        subst h1
        simp [Call.isVerify] at hv
      · obtain ⟨-, h1, -⟩ := h
        subst h1
        simp [Call.isVerify] at hv
    | ok c =>
      cases hc : c.deployed with
      | error e =>
        rw [script_deployed_error hre f c e hf hd hc] at h
        rcases pre with _ | ⟨p1, _ | ⟨p2, _ | ⟨p3, _ | ⟨p4, pre⟩⟩⟩⟩ <;> simp at h
        · obtain ⟨h1, -⟩ := h
          subst h1
          simp [Call.isVerify] at hv
        · obtain ⟨-, h1, -⟩ := h
          subst h1
          simp [Call.isVerify] at hv
        · obtain ⟨-, -, h1, -⟩ := h
          subst h1
          simp [Call.isVerify] at hv
      | ok u =>
        by_cases hn : hre.network.name = "mainnet" ∨ hre.network.name = "testnet"
        · have hcalls : (script hre).world.calls =
              [{ call := Call.getContractFactory "CyberSpawns721", ok := true },
               { call := Call.deploy, ok := true },
               { call := Call.deployed, ok := true },
               { call :=
                   Call.run "verify:verify"
                     { address := c.address, constructorArguments := [] }
                 ok :=
                   (hre.run "verify:verify"
                     { address := c.address, constructorArguments := [] }).toBool }] := by
            cases hr : hre.run "verify:verify"
                { address := c.address, constructorArguments := [] } with
            | error e => rw [script_verify_error hre f c e hn hf hd hc hr]; rfl
            | ok u2 => rw [script_verify_ok hre f c hn hf hd hc hr]; rfl
          rw [hcalls] at h
          rcases pre with _ | ⟨p1, _ | ⟨p2, _ | ⟨p3, _ | ⟨p4, _ | ⟨p5, pre⟩⟩⟩⟩⟩ <;> simp at h
          · obtain ⟨h1, -⟩ := h
            subst h1
            simp [Call.isVerify] at hv
          · obtain ⟨-, h1, -⟩ := h
            subst h1
            simp [Call.isVerify] at hv
          · obtain ⟨-, -, h1, -⟩ := h
            subst h1
            simp [Call.isVerify] at hv
          · obtain ⟨h1, h2, h3, -⟩ := h
            subst h1 h2 h3
            rfl
        · rw [script_skip hre f c hn hf hd hc] at h
          rcases pre with _ | ⟨p1, _ | ⟨p2, _ | ⟨p3, _ | ⟨p4, pre⟩⟩⟩⟩ <;> simp at h
          · obtain ⟨h1, -⟩ := h
            subst h1
            simp [Call.isVerify] at hv
          · obtain ⟨-, h1, -⟩ := h
            subst h1
            simp [Call.isVerify] at hv
          · obtain ⟨-, -, h1, -⟩ := h
            subst h1
            simp [Call.isVerify] at hv

/-- Witness for C5: on `testnet` the verification call is the fourth call. -/
theorem verify_only_after_confirmation_witness :
    (script (sampleRuntime "testnet" "0xABC" (Except.ok ()))).world.calls =
        [{ call := Call.getContractFactory "CyberSpawns721", ok := true },
         { call := Call.deploy, ok := true },
         { call := Call.deployed, ok := true }] ++
          { call :=
              Call.run "verify:verify" { address := "0xABC", constructorArguments := [] }
            ok := true } :: [] ∧
      (Call.run "verify:verify" { address := "0xABC", constructorArguments := [] }).isVerify =
        true ∧
      [{ call := Call.getContractFactory "CyberSpawns721", ok := true },
       { call := Call.deploy, ok := true },
       ({ call := Call.deployed, ok := true } : Event)] =
        [{ call := Call.getContractFactory "CyberSpawns721", ok := true },
         { call := Call.deploy, ok := true },
         { call := Call.deployed, ok := true }] :=
  ⟨rfl, rfl,
    verify_only_after_confirmation (sampleRuntime "testnet" "0xABC" (Except.ok ()))
      [{ call := Call.getContractFactory "CyberSpawns721", ok := true },
       { call := Call.deploy, ok := true },
       { call := Call.deployed, ok := true }]
      []
      { call := Call.run "verify:verify" { address := "0xABC", constructorArguments := [] }
        ok := true }
      rfl rfl⟩

/-- C6: the deployment line with an address is on standard output if and only
if the factory lookup, `deploy()` and `deployed()` were all fulfilled, with a
contract at that address; and when `deploy()` or `deployed()` is rejected,
nothing is written to standard output, no verification call is made and the
run exits with code 1. -/
theorem deployment_line_iff_confirmed (hre : HardhatRuntimeEnvironment) :
    (∀ a : String,
      "Cyber Spawns 721 contract Deployed: " ++ a ∈ (script hre).world.stdout ↔
        ∃ f c, hre.getContractFactory "CyberSpawns721" = Except.ok f ∧
          f.deploy = Except.ok c ∧ c.deployed = Except.ok () ∧ c.address = a) ∧
    ((∃ f e, hre.getContractFactory "CyberSpawns721" = Except.ok f ∧
        (f.deploy = Except.error e ∨
          ∃ c, f.deploy = Except.ok c ∧ c.deployed = Except.error e)) →
      (script hre).world.stdout = [] ∧
        (script hre).world.calls.filter (fun ev => ev.call.isVerify) = [] ∧
        (script hre).code = 1) := by
  constructor
  · intro a
    cases hf : hre.getContractFactory "CyberSpawns721" with
    | error e =>
      rw [script_factory_error hre e hf]
      simp
    | ok f =>
      cases hd : f.deploy with
      | error e =>
        rw [script_deploy_error hre f e hf hd]
        simp [hd]
      | ok c =>
        cases hc : c.deployed with
        | error e =>
          rw [script_deployed_error hre f c e hf hd hc]
          simp [hd, hc]
        | ok u =>
          have hstd : "Cyber Spawns 721 contract Deployed: " ++ a ∈ (script hre).world.stdout ↔
              c.address = a := by
            by_cases hn : hre.network.name = "mainnet" ∨ hre.network.name = "testnet"
            · have hout : (script hre).world.stdout =
                  ["Cyber Spawns 721 contract Deployed: " ++ c.address] := by
                cases hr : hre.run "verify:verify"
                    { address := c.address, constructorArguments := [] } with
                | error e => rw [script_verify_error hre f c e hn hf hd hc hr]
                | ok u2 => rw [script_verify_ok hre f c hn hf hd hc hr]
              rw [hout]
              constructor
              · intro h
                rw [List.mem_singleton] at h
                exact (deployedLine_inj a c.address h).symm
              · intro h
                rw [h]
                exact List.mem_singleton.mpr rfl
            · rw [script_skip hre f c hn hf hd hc]
              constructor
              · intro h
                simp only [List.mem_cons, List.mem_singleton, List.not_mem_nil, or_false] at h
                rcases h with h | h
                · exact (deployedLine_inj a c.address h).symm
                · exact absurd h (deployedLine_ne_reminder a hre.network.name)
              · intro h
                rw [h]
                exact List.mem_cons_self _ _
          rw [hstd]
          constructor
          · intro h
            exact ⟨f, c, rfl, hd, hc, h⟩
          · rintro ⟨f2, c2, h1, h2, -, h4⟩
            have hff : f = f2 := by injection h1
            subst hff
            rw [hd] at h2
            have hcc : c = c2 := by injection h2
            subst hcc
            exact h4
  · rintro ⟨f, e, hf, hd | ⟨c, hd, hc⟩⟩
    · rw [script_deploy_error hre f e hf hd]
      simp [Call.isVerify]
    · rw [script_deployed_error hre f c e hf hd hc]
      simp [Call.isVerify]

/-- Witness for C6: the deployment transaction is rejected on `testnet`. -/
theorem deployment_line_iff_confirmed_witness :
    (script (rejectedDeployRuntime "testnet")).world.stdout = [] ∧
      (script (rejectedDeployRuntime "testnet")).world.calls.filter
        (fun ev => ev.call.isVerify) = [] ∧
      (script (rejectedDeployRuntime "testnet")).code = 1 :=
  (deployment_line_iff_confirmed (rejectedDeployRuntime "testnet")).2
    ⟨{ deploy := Except.error { message := "invalid sender" } },
      { message := "invalid sender" }, rfl, Or.inl rfl⟩

/-- C8, as stated, fails when no variable is set: the variable `PRIVATE_KEY_1`
is absent, yet the signing-credential entries of the `mainnet` and `testnet`
accounts lists are the string `undefined`, which is neither empty nor the
value `undefined`. -/
theorem absent_private_key_is_text_undefined :
    emptyEnv "PRIVATE_KEY_1" = none ∧ emptyEnv "PRIVATE_KEY_2" = none ∧
      (moduleExports emptyEnv).accountsOf "mainnet" = [JSValue.string "undefined"] ∧
      (moduleExports emptyEnv).accountsOf "testnet" =
        [JSValue.string "undefined", JSValue.string "undefined"] ∧
      ¬ (∀ v ∈ (moduleExports emptyEnv).accountsOf "mainnet", v.isEmptyOrUndefined) ∧
      ¬ (∀ v ∈ (moduleExports emptyEnv).accountsOf "testnet", v.isEmptyOrUndefined) := by
  decide

/-- C8, amended: building the configuration is a total function of the process
environment, and in its value an absent `BSCSCAN_API_KEY`, `TENDERLY_PROJECT`
or `TENDERLY_USERNAME` leaves `etherscan.apiKey`, `tenderly.project` or
`tenderly.username` undefined, while an absent `PRIVATE_KEY_1` or
`PRIVATE_KEY_2` leaves the string `undefined` at its places in the `testnet`
and `mainnet` accounts lists. -/
theorem absent_secrets_in_configuration (env : Env) :
    (env "BSCSCAN_API_KEY" = none →
      (moduleExports env).etherscan.apiKey = JSValue.undefined) ∧
    (env "TENDERLY_PROJECT" = none →
      (moduleExports env).tenderly.project = JSValue.undefined) ∧
    (env "TENDERLY_USERNAME" = none →
      (moduleExports env).tenderly.username = JSValue.undefined) ∧
    (env "PRIVATE_KEY_1" = none →
      ((moduleExports env).accountsOf "testnet")[0]? = some (JSValue.string "undefined") ∧
        (moduleExports env).accountsOf "mainnet" = [JSValue.string "undefined"]) ∧
    (env "PRIVATE_KEY_2" = none →
      ((moduleExports env).accountsOf "testnet")[1]? = some (JSValue.string "undefined")) ∧
    ((moduleExports env).accountsOf "testnet").length = 2 := by
  refine ⟨?_, ?_, ?_, ?_, ?_, ?_⟩
  · intro h
    simp [moduleExports, Env.get, h]
  · intro h
    simp [moduleExports, Env.get, h]
  · intro h
    simp [moduleExports, Env.get, h]
  · intro h
    simp [moduleExports, HardhatUserConfig.accountsOf, List.lookup, PRIVATE_KEY_1, Env.get, h,
      templateLiteral]
  · intro h
    simp [moduleExports, HardhatUserConfig.accountsOf, List.lookup, PRIVATE_KEY_2, Env.get, h,
      templateLiteral]
  · simp [moduleExports, HardhatUserConfig.accountsOf, List.lookup]

/-- Witness for the amended C8: the environment in which no variable is set. -/
theorem absent_secrets_in_configuration_witness :
    (moduleExports emptyEnv).etherscan.apiKey = JSValue.undefined ∧
      ((moduleExports emptyEnv).accountsOf "testnet")[0]? =
        some (JSValue.string "undefined") ∧
      (moduleExports emptyEnv).accountsOf "mainnet" = [JSValue.string "undefined"] :=
  ⟨(absent_secrets_in_configuration emptyEnv).1 rfl,
    (absent_secrets_in_configuration emptyEnv).2.2.2.1 rfl⟩

/-- C9: no step is retried.  In every run each of `getContractFactory`,
`deploy()`, `deployed()` and the verification task is called at most once, and
a rejected call is the last collaborator call of the run, which then exits
with code 1. -/
theorem no_step_is_retried (hre : HardhatRuntimeEnvironment) :
    ((script hre).world.calls.countP (fun ev => ev.call.isGetContractFactory) ≤ 1 ∧
      (script hre).world.calls.countP (fun ev => ev.call.isDeploy) ≤ 1 ∧
      (script hre).world.calls.countP (fun ev => ev.call.isDeployed) ≤ 1 ∧
      (script hre).world.calls.countP (fun ev => ev.call.isVerify) ≤ 1) ∧
    (∀ (pre post : List Event) (ev : Event),
      (script hre).world.calls = pre ++ ev :: post → ev.ok = false →
        post = [] ∧ (script hre).code = 1) := by
  cases hf : hre.getContractFactory "CyberSpawns721" with
  | error e =>
    rw [script_factory_error hre e hf]
    refine ⟨by simp [Call.isGetContractFactory, Call.isDeploy, Call.isDeployed,
      Call.isVerify], ?_⟩
    intro pre post ev h hv
    rcases pre with _ | ⟨p1, _ | ⟨p2, pre⟩⟩ <;> simp at h
    exact ⟨h.2, rfl⟩
  | ok f =>
    cases hd : f.deploy with
    | error e =>
      rw [script_deploy_error hre f e hf hd]
      refine ⟨by simp [Call.isGetContractFactory, Call.isDeploy, Call.isDeployed,
        Call.isVerify], ?_⟩
      intro pre post ev h hv
      rcases pre with _ | ⟨p1, _ | ⟨p2, _ | ⟨p3, pre⟩⟩⟩ <;> simp at h
      · obtain ⟨h1, -⟩ := h
        subst h1
        simp at hv
      · exact ⟨h.2.2, rfl⟩
    | ok c =>
      cases hc : c.deployed with
      | error e =>
        rw [script_deployed_error hre f c e hf hd hc]
        refine ⟨by simp [Call.isGetContractFactory, Call.isDeploy, Call.isDeployed,
          Call.isVerify], ?_⟩
        intro pre post ev h hv
        rcases pre with _ | ⟨p1, _ | ⟨p2, _ | ⟨p3, _ | ⟨p4, pre⟩⟩⟩⟩ <;> simp at h
        · obtain ⟨h1, -⟩ := h
          subst h1
          simp at hv
        · obtain ⟨-, h1, -⟩ := h
          subst h1
          simp at hv
        · exact ⟨h.2.2.2, rfl⟩
      | ok u =>
        by_cases hn : hre.network.name = "mainnet" ∨ hre.network.name = "testnet"
        · cases hr : hre.run "verify:verify"
              { address := c.address, constructorArguments := [] } with
          | error e =>
            rw [script_verify_error hre f c e hn hf hd hc hr]
            refine ⟨by simp [Call.isGetContractFactory, Call.isDeploy, Call.isDeployed,
              Call.isVerify], ?_⟩
            intro pre post ev h hv
            rcases pre with _ | ⟨p1, _ | ⟨p2, _ | ⟨p3, _ | ⟨p4, _ | ⟨p5, pre⟩⟩⟩⟩⟩ <;>
              simp at h
            · obtain ⟨h1, -⟩ := h
              subst h1
              simp at hv
            · obtain ⟨-, h1, -⟩ := h
              subst h1
              simp at hv
            · obtain ⟨-, -, h1, -⟩ := h
              subst h1
              simp at hv
            · exact ⟨h.2.2.2.2, rfl⟩
          | ok u2 =>
            rw [script_verify_ok hre f c hn hf hd hc hr]
            refine ⟨by simp [Call.isGetContractFactory, Call.isDeploy, Call.isDeployed,
              Call.isVerify], ?_⟩
            intro pre post ev h hv
            rcases pre with _ | ⟨p1, _ | ⟨p2, _ | ⟨p3, _ | ⟨p4, _ | ⟨p5, pre⟩⟩⟩⟩⟩ <;>
              simp at h
            · obtain ⟨h1, -⟩ := h
              subst h1
              simp at hv
            · obtain ⟨-, h1, -⟩ := h
              subst h1
              simp at hv
            · obtain ⟨-, -, h1, -⟩ := h
              subst h1
              simp at hv
            · obtain ⟨-, -, -, h1, -⟩ := h
              subst h1
              simp at hv
        · rw [script_skip hre f c hn hf hd hc]
          refine ⟨by simp [Call.isGetContractFactory, Call.isDeploy, Call.isDeployed,
            Call.isVerify], ?_⟩
          intro pre post ev h hv
          rcases pre with _ | ⟨p1, _ | ⟨p2, _ | ⟨p3, _ | ⟨p4, pre⟩⟩⟩⟩ <;> simp at h
          · obtain ⟨h1, -⟩ := h
            subst h1
            simp at hv
          · obtain ⟨-, h1, -⟩ := h
            subst h1
            simp at hv
          · obtain ⟨-, -, h1, -⟩ := h
            subst h1
            simp at hv

/-- Witness for C9: the rejected `deploy()` on `mainnet` is the last call. -/
theorem no_step_is_retried_witness :
    (script (rejectedDeployRuntime "mainnet")).world.calls =
        [{ call := Call.getContractFactory "CyberSpawns721", ok := true }] ++
          { call := Call.deploy, ok := false } :: [] ∧
      (([] : List Event) = [] ∧ (script (rejectedDeployRuntime "mainnet")).code = 1) :=
  ⟨rfl,
    (no_step_is_retried (rejectedDeployRuntime "mainnet")).2
      [{ call := Call.getContractFactory "CyberSpawns721", ok := true }] []
      { call := Call.deploy, ok := false } rfl rfl⟩

/-- C10: credentials are never logged.  Two runs on the same network with the
same collaborators, in any two process environments (in particular two that
differ only in the values of the secrets), write the same text to standard
output; that text is determined by the confirmed address and the network
name. -/
theorem stdout_independent_of_environment (env₁ env₂ : Env) (networkName : String)
    (factoryOf : String → Except Error Factory)
    (runTask : String → TaskArguments → Except Error Unit) :
    (script (runtime env₁ networkName factoryOf runTask)).world.stdout =
        (script (runtime env₂ networkName factoryOf runTask)).world.stdout ∧
      (script (runtime env₁ networkName factoryOf runTask)).world.stdout =
        (match confirmedAddress (runtime env₁ networkName factoryOf runTask) with
          | none => []
          | some a =>
            if networkName = "mainnet" ∨ networkName = "testnet" then
              ["Cyber Spawns 721 contract Deployed: " ++ a]
            else
              ["Cyber Spawns 721 contract Deployed: " ++ a,
               "Contracts deployed to " ++ networkName ++
                 " network. Please verify them manually."]) := by
  have key : ∀ (env : Env) (a : Option String),
      confirmedAddress (runtime env networkName factoryOf runTask) = a →
      (script (runtime env networkName factoryOf runTask)).world.stdout =
        (match a with
          | none => []
          | some a =>
            if networkName = "mainnet" ∨ networkName = "testnet" then
              ["Cyber Spawns 721 contract Deployed: " ++ a]
            else
              ["Cyber Spawns 721 contract Deployed: " ++ a,
               "Contracts deployed to " ++ networkName ++
                 " network. Please verify them manually."]) := by
    intro env a ha
    cases hf : factoryOf "CyberSpawns721" with
    | error e =>
      rw [script_factory_error (runtime env networkName factoryOf runTask) e hf]
      simp [confirmedAddress, runtime, hf] at ha
      subst ha
      rfl
    | ok f =>
      cases hd : f.deploy with
      | error e =>
        rw [script_deploy_error (runtime env networkName factoryOf runTask) f e hf hd]
        simp [confirmedAddress, runtime, hf, hd] at ha
        subst ha
        rfl
      | ok c =>
        cases hc : c.deployed with
        | error e =>
          rw [script_deployed_error (runtime env networkName factoryOf runTask) f c e hf hd hc]
          simp [confirmedAddress, runtime, hf, hd, hc] at ha
          subst ha
          rfl
        | ok u =>
          simp [confirmedAddress, runtime, hf, hd, hc] at ha
          subst ha
          by_cases hn : networkName = "mainnet" ∨ networkName = "testnet"
          · cases hr : runTask "verify:verify"
                { address := c.address, constructorArguments := [] } with
            | error e =>
              rw [script_verify_error (runtime env networkName factoryOf runTask) f c e hn hf
                hd hc hr]
              simp [hn]
            | ok u2 =>
              rw [script_verify_ok (runtime env networkName factoryOf runTask) f c hn hf hd hc
                hr]
              simp [hn]
          · rw [script_skip (runtime env networkName factoryOf runTask) f c hn hf hd hc]
            simp [hn, runtime]
  have same : confirmedAddress (runtime env₂ networkName factoryOf runTask) =
      confirmedAddress (runtime env₁ networkName factoryOf runTask) := rfl
  exact ⟨(key env₁ _ rfl).trans (key env₂ _ same).symm, key env₁ _ rfl⟩

end CyberSpawns
